import Mathlib

/-!
Shallow embedding of the order-fulfillment core of the Amoura backend
(`app/services/order_service.py`, with the data model of `app/models/*.py`
and the session semantics of `app/database.py`).

Modelling conventions:
- Monetary amounts (`price`, `snapshot_price`, `unit_price`, totals) are
  exact rationals `ℚ`; Python's `round(x, 2)` is embedded as round-half-even
  to two decimals on exact values (`round2`).
- UUIDs are modelled as `ℕ` identifiers; `uuid4` freshness is modelled by a
  `nextId` counter in the database state.
- Timestamps are minutes since an epoch (`ℕ`); a calendar date is its day
  number, so `today = now / 1440` and `datetime.combine(d, t)` is
  `d * 1440 + t`.
- Each service method raising `HTTPException` is embedded as a function into
  `Except CheckoutError _` (resp. `Except StatusError _`); `get_session`
  (`app/database.py`) closes the session without commit when the handler
  raises, so an error result leaves the persisted `DBState` unchanged —
  this request lifecycle is embedded by `runCheckout` / `run_update_status`.
-/

namespace Amoura

/-- Floor of a rational, via floored integer division of numerator by
denominator. -/
def ratFloor (q : ℚ) : ℤ := Int.fdiv q.num q.den

/-- Round a rational to the nearest integer, ties to the even integer
(banker's rounding, the rule used by Python's built-in `round`). -/
def roundHalfEven (q : ℚ) : ℤ :=
  let f := ratFloor q
  if q - f < 1/2 then f
  else if (1 : ℚ)/2 < q - f then f + 1
  else if f % 2 = 0 then f else f + 1

/-- Python's `round(x, 2)` on exact values: round half-even at two decimal
places. -/
def round2 (q : ℚ) : ℚ := (roundHalfEven (q * 100) : ℚ) / 100

/-- Fixed tax rate (8%), `TAX_RATE = 0.08` in `order_service.py`. -/
def TAX_RATE : ℚ := 8 / 100

/-- Minimum lead time for any delivery, `MIN_LEAD_MINUTES = 30`. -/
def MIN_LEAD_MINUTES : ℕ := 30

/-- Minutes in a day, used to convert between instants and dates. -/
def minutesPerDay : ℕ := 1440

/-- The `DeliveryWindow` literal type of `app/schemas/order.py`. -/
inductive DeliveryWindow
  | morning
  | afternoon
  | evening
  | custom
deriving DecidableEq, Repr

/-- The `OrderStatus` literal type of `app/schemas/order.py`. -/
inductive OrderStatus
  | pending
  | confirmed
  | shipped
  | canceled
deriving DecidableEq, Repr

/-- `WINDOW_START_TIMES` of `order_service.py`: canonical start time of each
window in minutes since midnight (`morning=09:00, afternoon=14:00,
evening=19:00`); `custom` has no entry (`dict.get` yields `None`). -/
def WINDOW_START_TIMES : DeliveryWindow → Option ℕ
  | .morning => some (9 * 60)
  | .afternoon => some (14 * 60)
  | .evening => some (19 * 60)
  | .custom => none

/-- `Product` row (`app/models/product.py`), the fields checkout reads.
`stock_on_hand` is an `ℤ` so the post-deduction negativity check is
meaningful. -/
structure Product where
  id : ℕ
  price : ℚ
  stock_on_hand : ℤ
  is_active : Bool
deriving DecidableEq, Repr

/-- `CartItem` row (`app/models/cart.py`), the fields checkout reads. -/
structure CartItem where
  id : ℕ
  user_id : ℕ
  product_id : ℕ
  quantity : ℕ
  snapshot_price : ℚ
deriving DecidableEq, Repr

/-- `OrderCreate` payload (`app/schemas/order.py`): delivery date (day
number), window and contact fields. -/
structure OrderCreate where
  receiver_name : Option String
  phone_number : String
  full_address : String
  province : String
  ward : String
  delivery_date : ℕ
  delivery_window : DeliveryWindow
  note : Option String
deriving DecidableEq, Repr

/-- `Order` row (`app/models/order.py`). -/
structure Order where
  id : ℕ
  user_id : ℕ
  receiver_name : Option String
  phone_number : String
  note : Option String
  full_address : String
  province : String
  ward : String
  delivery_date : ℕ
  delivery_window : DeliveryWindow
  status : OrderStatus
  total_amount : ℚ
deriving DecidableEq, Repr

/-- `OrderItem` row (`app/models/order.py`). -/
structure OrderItem where
  id : ℕ
  order_id : ℕ
  product_id : ℕ
  quantity : ℕ
  unit_price : ℚ
deriving DecidableEq, Repr

/-- `OrderItemRead` DTO (`app/schemas/order.py`). -/
structure OrderItemRead where
  id : ℕ
  order_id : ℕ
  product_id : ℕ
  quantity : ℕ
  unit_price : ℚ
  line_total : ℚ
deriving DecidableEq, Repr

/-- `OrderWithItemsRead` DTO (`app/schemas/order.py`): order fields plus
items, subtotal and tax breakdown. -/
structure OrderWithItemsRead where
  id : ℕ
  user_id : ℕ
  receiver_name : Option String
  phone_number : String
  note : Option String
  full_address : String
  province : String
  ward : String
  delivery_date : ℕ
  delivery_window : DeliveryWindow
  status : OrderStatus
  total_amount : ℚ
  items : List OrderItemRead
  subtotal : ℚ
  tax_amount : ℚ
deriving DecidableEq, Repr

/-- Persisted database state: the four tables checkout touches, plus a
fresh-id counter standing in for `uuid4` generation. -/
structure DBState where
  products : List Product
  cartItems : List CartItem
  orders : List Order
  orderItems : List OrderItem
  nextId : ℕ
deriving DecidableEq, Repr

/-- Per-line validation failure reasons collected by checkout
(`create_order_from_cart`, step 3). `insufficientStock` carries the
available stock and the requested quantity, as the Python message does. -/
inductive LineReason
  | productNotFound
  | productInactive
  | insufficientStock (available : ℤ) (requested : ℕ)
  | invalidCartPrice
deriving DecidableEq, Repr

/-- Errors `create_order_from_cart` can raise (each an `HTTPException` in
the source). `missingProductFault` models the `AttributeError` Python would
raise if `product_map` held `None` at deduction time (unreachable once
validation has passed). -/
inductive CheckoutError
  | pastDate
  | sameDayCustomNotAllowed
  | insufficientLeadTime
  | emptyCart
  | cartValidationFailed (items : List (ℕ × LineReason))
  | invalidOrderAmount
  | stockUnderflow
  | missingProductFault
deriving DecidableEq, Repr

/-- Errors `update_status` can raise. -/
inductive StatusError
  | notFound
  | invalidStatusTransition (src : OrderStatus) (tgt : OrderStatus)
deriving DecidableEq, Repr

/-- `ProductRepository.get_by_id`: point lookup by primary key. -/
def getProductIn (products : List Product) (pid : ℕ) : Option Product :=
  products.find? (fun p => p.id == pid)

/-- Product lookup against the full state. -/
def getProduct (st : DBState) (pid : ℕ) : Option Product :=
  getProductIn st.products pid

/-- `CartRepository.list_for_user`: the user's cart lines. -/
def userCart (st : DBState) (u : ℕ) : List CartItem :=
  st.cartItems.filter (fun c => c.user_id == u)

/-- `OrderRepository.get_by_id`. -/
def getOrderById (st : DBState) (oid : ℕ) : Option Order :=
  st.orders.find? (fun o => o.id == oid)

/-- `OrderRepository.list_items_for_order`. -/
def list_items_for_order (st : DBState) (oid : ℕ) : List OrderItem :=
  st.orderItems.filter (fun it => it.order_id == oid)

/-- `OrderService._validate_delivery_timing` (order_service.py lines
382–418), with the current instant `now` (minutes since epoch) passed in
place of `datetime.now()`: reject dates before today; accept dates after
today; on the current day reject `custom` (no canonical start) and
otherwise require `date + start ≥ now + MIN_LEAD_MINUTES`. -/
def validate_delivery_timing (payload : OrderCreate) (now : ℕ) :
    Except CheckoutError Unit :=
  if payload.delivery_date < now / minutesPerDay then .error .pastDate
  else if now / minutesPerDay < payload.delivery_date then .ok ()
  else
    match WINDOW_START_TIMES payload.delivery_window with
    | none => .error .sameDayCustomNotAllowed
    | some start_time =>
        if payload.delivery_date * minutesPerDay + start_time
            < now + MIN_LEAD_MINUTES then
          .error .insufficientLeadTime
        else .ok ()

/-- One iteration of the validation loop of `create_order_from_cart`
(lines 102–140): the single reason recorded for this cart line, or `none`.
Each failing check `continue`s past the later ones, so the checks are
tried in the fixed order missing → inactive → stock → price. -/
def lineReason (st : DBState) (ci : CartItem) : Option LineReason :=
  match getProduct st ci.product_id with
  | none => some .productNotFound
  | some product =>
      if !product.is_active then some .productInactive
      else if product.stock_on_hand < (ci.quantity : ℤ) then
        some (.insufficientStock product.stock_on_hand ci.quantity)
      else if ci.snapshot_price ≤ 0 then some .invalidCartPrice
      else none

/-- The aggregated `errors` list of the validation loop: one
`(product_id, reason)` entry per violating line, in cart order. -/
def validationErrors (st : DBState) (cart : List CartItem) :
    List (ℕ × LineReason) :=
  cart.filterMap (fun ci => (lineReason st ci).map (fun r => (ci.product_id, r)))

/-- Step 4 of `create_order_from_cart`: `subtotal += quantity * snapshot_price`
over the cart lines. -/
def cartSubtotal (cart : List CartItem) : ℚ :=
  cart.foldl (fun acc ci => acc + (ci.quantity : ℚ) * ci.snapshot_price) 0

/-- Overwrite the stock of the product with the given id (the in-place
`product.stock_on_hand -= quantity` on the mapped ORM object). -/
def setStock (products : List Product) (pid : ℕ) (ns : ℤ) : List Product :=
  products.map (fun p => if p.id = pid then { p with stock_on_hand := ns } else p)

/-- Step 7 of `create_order_from_cart` (lines 191–199): deduct
`stock_on_hand -= quantity` line by line, raising a 500
(`stockUnderflow`) as soon as a stock goes negative. -/
def deductStock (products : List Product) :
    List CartItem → Except CheckoutError (List Product)
  | [] => .ok products
  | ci :: rest =>
      match getProductIn products ci.product_id with
      | none => .error .missingProductFault
      | some p =>
          if p.stock_on_hand - (ci.quantity : ℤ) < 0 then .error .stockUnderflow
          else deductStock (setStock products ci.product_id
            (p.stock_on_hand - (ci.quantity : ℤ))) rest

/-- Step 6 of `create_order_from_cart`: one `OrderItem` per cart line,
carrying forward quantity and snapshot price; ids are allocated
consecutively from `base` (modelling `uuid4` freshness). -/
def mkOrderItems (orderId : ℕ) : ℕ → List CartItem → List OrderItem
  | _, [] => []
  | base, ci :: rest =>
      { id := base, order_id := orderId, product_id := ci.product_id,
        quantity := ci.quantity, unit_price := ci.snapshot_price }
        :: mkOrderItems orderId (base + 1) rest

/-- Subtotal accumulated over order items in
`_build_order_with_items_dto`. -/
def itemsSubtotal (items : List OrderItem) : ℚ :=
  items.foldl (fun acc it => acc + (it.quantity : ℚ) * it.unit_price) 0

/-- `OrderService._build_order_with_items_dto` (lines 336–380): compose the
DTO, recomputing `line_total`, `subtotal` and `tax_amount` from the items
(the order row only contributes `total_amount` and its own fields). -/
def build_order_with_items_dto (order : Order) (items : List OrderItem) :
    OrderWithItemsRead :=
  { id := order.id
    user_id := order.user_id
    receiver_name := order.receiver_name
    phone_number := order.phone_number
    note := order.note
    full_address := order.full_address
    province := order.province
    ward := order.ward
    delivery_date := order.delivery_date
    delivery_window := order.delivery_window
    status := order.status
    total_amount := order.total_amount
    items := items.map (fun it =>
      { id := it.id, order_id := it.order_id, product_id := it.product_id,
        quantity := it.quantity, unit_price := it.unit_price,
        line_total := (it.quantity : ℚ) * it.unit_price })
    subtotal := itemsSubtotal items
    tax_amount := round2 (itemsSubtotal items * TAX_RATE) }

/-- Step 5 of `create_order_from_cart`: the `Order` row inserted for this
checkout — status `pending`, `total_amount = subtotal + round2(subtotal *
TAX_RATE)`, contact and delivery fields copied from the payload, id fresh. -/
def checkoutOrder (st : DBState) (u : ℕ) (payload : OrderCreate) : Order :=
  { id := st.nextId
    user_id := u
    receiver_name := payload.receiver_name
    phone_number := payload.phone_number
    note := payload.note
    full_address := payload.full_address
    province := payload.province
    ward := payload.ward
    delivery_date := payload.delivery_date
    delivery_window := payload.delivery_window
    status := .pending
    total_amount := cartSubtotal (userCart st u)
      + round2 (cartSubtotal (userCart st u) * TAX_RATE) }

/-- The `OrderItem` rows inserted for this checkout. -/
def checkoutItems (st : DBState) (u : ℕ) : List OrderItem :=
  mkOrderItems st.nextId (st.nextId + 1) (userCart st u)

/-- The state written by `session.commit()` at step 9: deducted products,
the user's cart lines deleted, the order and item rows appended. -/
def commitState (st : DBState) (u : ℕ) (products2 : List Product)
    (payload : OrderCreate) : DBState :=
  { products := products2
    cartItems := st.cartItems.filter (fun c => ¬c.user_id = u)
    orders := st.orders ++ [checkoutOrder st u payload]
    orderItems := st.orderItems ++ checkoutItems st u
    nextId := st.nextId + 1 + (userCart st u).length }

/-- The `OrderWithItemsRead` returned by a successful checkout. -/
def checkoutView (st : DBState) (u : ℕ) (payload : OrderCreate) :
    OrderWithItemsRead :=
  build_order_with_items_dto (checkoutOrder st u payload) (checkoutItems st u)

/-- `OrderService.create_order_from_cart` (lines 64–209), with the current
instant `now` passed explicitly. The steps mirror the source: delivery
timing, cart load (error on empty), per-line validation with aggregated
errors, subtotal guard, then order / items / stock deduction / cart
clearing, committed together at the end. An `.error` result models a raised
`HTTPException`: nothing has been committed. -/
def create_order_from_cart (st : DBState) (userId : ℕ) (payload : OrderCreate)
    (now : ℕ) : Except CheckoutError (DBState × OrderWithItemsRead) :=
  match validate_delivery_timing payload now with
  | .error e => .error e
  | .ok _ =>
      if userCart st userId = [] then .error .emptyCart
      else if validationErrors st (userCart st userId) ≠ [] then
        .error (.cartValidationFailed (validationErrors st (userCart st userId)))
      else if cartSubtotal (userCart st userId) ≤ 0 then .error .invalidOrderAmount
      else
        match deductStock st.products (userCart st userId) with
        | .error e => .error e
        | .ok products2 =>
            .ok (commitState st userId products2 payload,
              checkoutView st userId payload)

/-- Request lifecycle of the checkout endpoint: `get_session`
(`app/database.py` lines 50–63) opens a session with
`with Session(engine)`; when the service raises, the session exits without
commit and every pending change is rolled back, so the persisted state is
the input state. -/
def runCheckout (st : DBState) (userId : ℕ) (payload : OrderCreate) (now : ℕ) :
    DBState × Option OrderWithItemsRead :=
  match create_order_from_cart st userId payload now with
  | .error _ => (st, none)
  | .ok (st2, dto) => (st2, some dto)

/-- `OrderService.get_user_order` (lines 225–244): the order with its items,
404 unless it exists and belongs to the caller. -/
def get_user_order (st : DBState) (userId : ℕ) (orderId : ℕ) :
    Except StatusError OrderWithItemsRead :=
  match getOrderById st orderId with
  | none => .error .notFound
  | some order =>
      if order.user_id ≠ userId then .error .notFound
      else .ok (build_order_with_items_dto order (list_items_for_order st order.id))

/-- `OrderService.get_order_admin` (lines 260–275): any order with items. -/
def get_order_admin (st : DBState) (orderId : ℕ) :
    Except StatusError OrderWithItemsRead :=
  match getOrderById st orderId with
  | none => .error .notFound
  | some order =>
      .ok (build_order_with_items_dto order (list_items_for_order st order.id))

/-- The `allowed` transition table of `OrderService.update_status` (lines
306–311): `pending → {confirmed, canceled}`, `confirmed → {shipped,
canceled}`, `shipped` and `canceled` terminal. -/
def allowedNext : OrderStatus → List OrderStatus
  | .pending => [.confirmed, .canceled]
  | .confirmed => [.shipped, .canceled]
  | .shipped => []
  | .canceled => []

/-- Observable actions of `update_status` after the transition check, in
order: the `session.commit()` of the status change, and the entry into the
`try` block around `_send_order_confirmation_email`. -/
inductive Event
  | committed
  | dispatchAttempt
deriving DecidableEq, Repr

/-- Result of a successful `update_status` call: the persisted state, the
returned order, and the trace of commit / notification events. -/
structure StatusUpdateResult where
  state : DBState
  order : Order
  events : List Event
deriving DecidableEq, Repr

/-- `OrderRepository.update_order` on the state: replace the stored order
row having this id. -/
def updateOrderInState (st : DBState) (o : Order) : DBState :=
  { st with orders := st.orders.map (fun x => if x.id = o.id then o else x) }

/-- `OrderService.update_status` (lines 277–332): look up the order (404 if
absent); a self-transition returns the order untouched before any commit;
otherwise the transition must be in the `allowed` table (400 if not), the
new status is committed, and only a transition newly entering `confirmed`
then enters the `try` block that dispatches the confirmation email. The
`dispatcherFails` flag models `_send_order_confirmation_email` raising; the
surrounding `except` swallows the failure, so the result does not depend on
it. -/
def update_status (st : DBState) (orderId : ℕ) (newStatus : OrderStatus)
    (dispatcherFails : Bool) : Except StatusError StatusUpdateResult :=
  match getOrderById st orderId with
  | none => .error .notFound
  | some order =>
      if order.status = newStatus then
        .ok { state := st, order := order, events := [] }
      else if newStatus ∈ allowedNext order.status then
        if order.status ≠ .confirmed ∧ newStatus = .confirmed then
          .ok { state := updateOrderInState st { order with status := newStatus }
                order := { order with status := newStatus }
                events := [.committed, .dispatchAttempt] }
        else
          .ok { state := updateOrderInState st { order with status := newStatus }
                order := { order with status := newStatus }
                events := [.committed] }
      else .error (.invalidStatusTransition order.status newStatus)

/-- Request lifecycle of the status-update endpoint (`get_session`
rollback on error, as for `runCheckout`). -/
def run_update_status (st : DBState) (orderId : ℕ) (newStatus : OrderStatus)
    (dispatcherFails : Bool) : DBState × Except StatusError Order :=
  match update_status st orderId newStatus dispatcherFails with
  | .error e => (st, .error e)
  | .ok r => (r.state, .ok r.order)

/-! ### Helper lemmas -/

theorem beqFalseOfNe {a b : ℕ} (h : ¬a = b) : (a == b) = false := by
  simp [h]

theorem beqTrueOfEq {a b : ℕ} (h : a = b) : (a == b) = true := by
  simp [h]

theorem getProductIn_setStock_self (ps : List Product) (pid : ℕ) (ns : ℤ)
    (p : Product) (h : getProductIn ps pid = some p) :
    getProductIn (setStock ps pid ns) pid = some { p with stock_on_hand := ns } := by
  induction ps with
  | nil => simp [getProductIn] at h
  | cons q rest ih =>
      by_cases hq : q.id = pid
      · simp only [getProductIn, List.find?_cons, beqTrueOfEq hq,
          Option.some.injEq] at h
        subst h
        simp [getProductIn, setStock, List.find?_cons, hq]
      · simp only [getProductIn, List.find?_cons, beqFalseOfNe hq] at h
        simp only [getProductIn, setStock, List.map_cons, List.find?_cons,
          if_neg hq, beqFalseOfNe hq]
        exact ih h

theorem getProductIn_setStock_ne (ps : List Product) (pid q : ℕ) (ns : ℤ)
    (h : q ≠ pid) : getProductIn (setStock ps pid ns) q = getProductIn ps q := by
  induction ps with
  | nil => rfl
  | cons r rest ih =>
      by_cases hr : r.id = pid
      · have hrq : ¬r.id = q := by
          rw [hr]; exact fun hc => h hc.symm
        simp only [getProductIn, setStock, List.map_cons, List.find?_cons,
          if_pos hr, beqFalseOfNe hrq]
        exact ih
      · by_cases hq : r.id = q
        · simp only [getProductIn, setStock, List.map_cons, List.find?_cons,
            if_neg hr, beqTrueOfEq hq]
        · simp only [getProductIn, setStock, List.map_cons, List.find?_cons,
            if_neg hr, beqFalseOfNe hq]
          exact ih

theorem lineReason_eq_none_iff (st : DBState) (ci : CartItem) :
    lineReason st ci = none ↔
      ∃ p, getProduct st ci.product_id = some p ∧ p.is_active = true ∧
        (ci.quantity : ℤ) ≤ p.stock_on_hand ∧ 0 < ci.snapshot_price := by
  unfold lineReason
  cases h : getProduct st ci.product_id with
  | none => simp
  | some p =>
      by_cases ha : p.is_active
      · by_cases hs : p.stock_on_hand < (ci.quantity : ℤ)
        · have hns : ¬(ci.quantity : ℤ) ≤ p.stock_on_hand := not_le.mpr hs
          simp [ha, hs, hns]
        · by_cases hpz : ci.snapshot_price ≤ 0
          · have hnp : ¬(0 : ℚ) < ci.snapshot_price := not_lt.mpr hpz
            simp [ha, hs, hpz, hnp]
          · have hle := not_lt.mp hs
            have hpos := lt_of_not_le hpz
            simp [ha, hs, hpz, hle, hpos]
      · simp [ha]

theorem validationErrors_eq_nil_iff (st : DBState) (cart : List CartItem) :
    validationErrors st cart = [] ↔ ∀ ci ∈ cart, lineReason st ci = none := by
  unfold validationErrors
  simp [List.filterMap_eq_nil_iff]

theorem mem_validationErrors (st : DBState) (cart : List CartItem) (ci : CartItem)
    (hci : ci ∈ cart) (r : LineReason) (hr : lineReason st ci = some r) :
    (ci.product_id, r) ∈ validationErrors st cart := by
  unfold validationErrors
  exact List.mem_filterMap.mpr ⟨ci, hci, by rw [hr]; rfl⟩

/-- If every cart line's product is present with sufficient stock and the
cart references pairwise-distinct products, the line-by-line deduction
succeeds (the underflow branch never fires), each referenced product's
stock drops by exactly its line's quantity, and all other products are
untouched. -/
theorem deductStock_spec :
    ∀ (cart : List CartItem) (products : List Product),
    (cart.map (fun c => c.product_id)).Nodup →
    (∀ ci ∈ cart, ∃ p, getProductIn products ci.product_id = some p ∧
        (ci.quantity : ℤ) ≤ p.stock_on_hand) →
    ∃ ps2, deductStock products cart = .ok ps2 ∧
      (∀ ci ∈ cart, ∀ p, getProductIn products ci.product_id = some p →
          getProductIn ps2 ci.product_id
            = some { p with stock_on_hand := p.stock_on_hand - (ci.quantity : ℤ) }) ∧
      (∀ pid, (∀ ci ∈ cart, ci.product_id ≠ pid) →
          getProductIn ps2 pid = getProductIn products pid) := by
  intro cart
  induction cart with
  | nil =>
      intro products _ _
      exact ⟨products, rfl, by simp, fun _ _ => rfl⟩
  | cons ci rest ih =>
      intro products hnd hall
      obtain ⟨p, hp, hle⟩ := hall ci (List.mem_cons_self ci rest)
      rw [List.map_cons, List.nodup_cons] at hnd
      have hnotin : ci.product_id ∉ rest.map (fun c => c.product_id) := hnd.1
      have hndrest : (rest.map (fun c => c.product_id)).Nodup := hnd.2
      have hrestne : ∀ cj ∈ rest, cj.product_id ≠ ci.product_id := by
        intro cj hcj hc
        exact hnotin (hc ▸ List.mem_map_of_mem (fun c => c.product_id) hcj)
      have hneg : ¬p.stock_on_hand - (ci.quantity : ℤ) < 0 := by omega
      obtain ⟨ps2, hrun, hdec, hun⟩ := ih
        (setStock products ci.product_id (p.stock_on_hand - (ci.quantity : ℤ)))
        hndrest
        (by
          intro cj hcj
          obtain ⟨pj, hpj, hlej⟩ := hall cj (List.mem_cons_of_mem ci hcj)
          exact ⟨pj, by
            rw [getProductIn_setStock_ne products ci.product_id cj.product_id _
              (hrestne cj hcj)]
            exact hpj, hlej⟩)
      refine ⟨ps2, ?_, ?_, ?_⟩
      · simp only [deductStock, hp, if_neg hneg]
        exact hrun
      · intro cj hcj pc hpc
        rcases List.mem_cons.mp hcj with hhead | htail
        · subst hhead
          rw [hp] at hpc
          injection hpc with hpc
          rw [hun cj.product_id (fun ck hck => hrestne ck hck), ← hpc]
          exact getProductIn_setStock_self products cj.product_id _ p hp
        · have hpc2 : getProductIn
              (setStock products ci.product_id (p.stock_on_hand - (ci.quantity : ℤ)))
              cj.product_id = some pc := by
            rw [getProductIn_setStock_ne products ci.product_id cj.product_id _
              (hrestne cj htail)]
            exact hpc
          exact hdec cj htail pc hpc2
      · intro pid hpid
        rw [hun pid (fun ck hck => hpid ck (List.mem_cons_of_mem ci hck))]
        exact getProductIn_setStock_ne products ci.product_id pid _
          (Ne.symm (hpid ci (List.mem_cons_self ci rest)))

/-- Anatomy of a successful checkout: every guard passed and the returned
state and view are the committed ones. -/
theorem create_order_from_cart_ok {st : DBState} {u : ℕ} {payload : OrderCreate}
    {now : ℕ} {st2 : DBState} {dto : OrderWithItemsRead}
    (h : create_order_from_cart st u payload now = .ok (st2, dto)) :
    validate_delivery_timing payload now = .ok () ∧
    userCart st u ≠ [] ∧
    validationErrors st (userCart st u) = [] ∧
    0 < cartSubtotal (userCart st u) ∧
    deductStock st.products (userCart st u) = .ok st2.products ∧
    st2 = commitState st u st2.products payload ∧
    dto = checkoutView st u payload := by
  unfold create_order_from_cart at h
  cases hv : validate_delivery_timing payload now with
  | error e => rw [hv] at h; exact absurd h (by simp)
  | ok unitv =>
      cases unitv
      rw [hv] at h
      by_cases hempty : userCart st u = []
      · rw [if_pos hempty] at h; exact absurd h (by simp)
      · rw [if_neg hempty] at h
        by_cases herr : validationErrors st (userCart st u) = []
        · rw [if_neg (not_not_intro herr)] at h
          by_cases hsub : cartSubtotal (userCart st u) ≤ 0
          · rw [if_pos hsub] at h; exact absurd h (by simp)
          · rw [if_neg hsub] at h
            cases hd : deductStock st.products (userCart st u) with
            | error e => rw [hd] at h; exact absurd h (by simp)
            | ok products2 =>
                rw [hd] at h
                injection h with h
                injection h with ha hb
                subst ha
                subst hb
                exact ⟨rfl, hempty, herr, lt_of_not_le hsub, rfl, rfl, rfl⟩
        · rw [if_pos herr] at h; exact absurd h (by simp)

/-- On a raised `HTTPException` the request lifecycle commits nothing. -/
theorem runCheckout_error {st : DBState} {u : ℕ} {payload : OrderCreate}
    {now : ℕ} {e : CheckoutError}
    (h : create_order_from_cart st u payload now = .error e) :
    runCheckout st u payload now = (st, none) := by
  unfold runCheckout
  rw [h]

theorem getOrderById_some_id {st : DBState} {oid : ℕ} {o : Order}
    (h : getOrderById st oid = some o) : o.id = oid := by
  unfold getOrderById at h
  have := List.find?_some h
  simpa using this

theorem find?_map_update (orders : List Order) (o o2 : Order) (oid : ℕ)
    (h : orders.find? (fun x => x.id == oid) = some o) (hid : o2.id = o.id)
    (hoid : o.id = oid) :
    (orders.map (fun x => if x.id = o2.id then o2 else x)).find?
      (fun x => x.id == oid) = some o2 := by
  induction orders with
  | nil => simp at h
  | cons q rest ih =>
      by_cases hq : q.id = oid
      · have hqo2 : q.id = o2.id := by rw [hid, hoid, hq]
        simp only [List.map_cons, List.find?_cons, if_pos hqo2,
          beqTrueOfEq (show o2.id = oid by rw [hid, hoid])]
      · have hqo2 : ¬q.id = o2.id := by
          rw [hid, hoid]; exact hq
        simp only [List.find?_cons, beqFalseOfNe hq] at h
        simp only [List.map_cons, List.find?_cons, if_neg hqo2, beqFalseOfNe hq]
        exact ih h

theorem getOrderById_update {st : DBState} {oid : ℕ} {o : Order} (o2 : Order)
    (h : getOrderById st oid = some o) (hid : o2.id = o.id) :
    getOrderById (updateOrderInState st o2) oid = some o2 := by
  have h2 : st.orders.find? (fun x => x.id == oid) = some o := h
  exact find?_map_update st.orders o o2 oid h2 hid (getOrderById_some_id h)

/-! ### Claims about the order-status state machine -/

/-- C4: `update_status` enforces exactly the transition table `pending →
{confirmed, canceled}`, `confirmed → {shipped, canceled}` with `shipped`
and `canceled` terminal: for an existing order and a requested status
different from the current one, the update succeeds and persists the new
status iff the pair is in the table, and otherwise fails with
`InvalidStatusTransition(from, to)` leaving the persisted state (hence the
status) unchanged. -/
theorem update_status_transition_table (st : DBState) (oid : ℕ)
    (newStatus : OrderStatus) (b : Bool) (o : Order)
    (h : getOrderById st oid = some o) (hne : newStatus ≠ o.status) :
    (newStatus ∈ allowedNext o.status →
      ∃ r, update_status st oid newStatus b = .ok r ∧
        r.order = { o with status := newStatus } ∧
        getOrderById r.state oid = some { o with status := newStatus }) ∧
    (newStatus ∉ allowedNext o.status →
      run_update_status st oid newStatus b
        = (st, .error (.invalidStatusTransition o.status newStatus))) := by
  have hcond : ¬o.status = newStatus := fun hh => hne hh.symm
  constructor
  · intro hmem
    by_cases hc : o.status ≠ .confirmed ∧ newStatus = .confirmed
    · refine ⟨{ state := updateOrderInState st { o with status := newStatus },
                order := { o with status := newStatus },
                events := [.committed, .dispatchAttempt] }, ?_, rfl,
        getOrderById_update { o with status := newStatus } h rfl⟩
      simp only [update_status, h]
      rw [if_neg hcond, if_pos hmem, if_pos hc]
    · refine ⟨{ state := updateOrderInState st { o with status := newStatus },
                order := { o with status := newStatus },
                events := [.committed] }, ?_, rfl,
        getOrderById_update { o with status := newStatus } h rfl⟩
      simp only [update_status, h]
      rw [if_neg hcond, if_pos hmem, if_neg hc]
  · intro hmem
    have hrun : update_status st oid newStatus b
        = .error (.invalidStatusTransition o.status newStatus) := by
      simp only [update_status, h]
      rw [if_neg hcond, if_neg hmem]
    unfold run_update_status
    rw [hrun]

/-- C8: a self-transition (`newStatus` equal to the order's current status)
is a no-op success for every current status, including the terminal ones:
no error, the very same order row is returned, the persisted state is
untouched, and no commit or notification event happens. -/
theorem update_status_noop (st : DBState) (oid : ℕ) (b : Bool) (o : Order)
    (h : getOrderById st oid = some o) :
    update_status st oid o.status b = .ok { state := st, order := o, events := [] } := by
  simp [update_status, h]

/-- C7: a successful transition newly entering `confirmed` produces exactly
the event trace commit-then-dispatch (one dispatch attempt, after the
commit); every other successful call dispatches nothing; the committed
status is `confirmed`; and the result is independent of whether the
dispatcher fails (the exception is swallowed). -/
theorem update_status_confirm_notification (st : DBState) (oid : ℕ) (b : Bool)
    (o : Order) (h : getOrderById st oid = some o) :
    (∀ newStatus r, update_status st oid newStatus b = .ok r →
      ((o.status ≠ .confirmed ∧ newStatus = .confirmed) →
        r.events = [.committed, .dispatchAttempt] ∧
        r.order.status = .confirmed ∧
        getOrderById r.state oid = some { o with status := .confirmed }) ∧
      (¬(o.status ≠ .confirmed ∧ newStatus = .confirmed) →
        Event.dispatchAttempt ∉ r.events)) ∧
    (∀ newStatus, update_status st oid newStatus true
      = update_status st oid newStatus false) := by
  constructor
  · intro newStatus r hr
    simp only [update_status, h] at hr
    by_cases hself : o.status = newStatus
    · rw [if_pos hself] at hr
      injection hr with hr
      constructor
      · rintro ⟨hne, hc⟩
        exact absurd (hself.trans hc) hne
      · intro _
        rw [← hr]
        simp
    · rw [if_neg hself] at hr
      by_cases hmem : newStatus ∈ allowedNext o.status
      · rw [if_pos hmem] at hr
        by_cases hc : o.status ≠ .confirmed ∧ newStatus = .confirmed
        · rw [if_pos hc] at hr
          injection hr with hr
          constructor
          · intro _
            refine ⟨by rw [← hr], ?_, ?_⟩
            · rw [← hr, hc.2]
            · rw [← hr, ← hc.2]
              exact getOrderById_update { o with status := newStatus } h rfl
          · intro hnc
            exact absurd hc hnc
        · rw [if_neg hc] at hr
          injection hr with hr
          constructor
          · intro hcc
            exact absurd hcc hc
          · intro _
            rw [← hr]
            simp
      · rw [if_neg hmem] at hr
        exact absurd hr (by simp)
  · intro _
    rfl

/-! ### Claim about the delivery-timing validator -/

/-- C5: evaluated at a current instant `now`, the validator rejects a
delivery date strictly before today (`PastDate`), accepts every strictly
future date unconditionally, always rejects a same-day `custom` window
(`SameDayCustomNotAllowed`), and for a same-day window with a canonical
start accepts exactly when the delivery instant is at least `now` plus the
30-minute lead time, rejecting with `InsufficientLeadTime` below that
bound. -/
theorem validate_delivery_timing_claim (payload : OrderCreate) (now : ℕ) :
    (payload.delivery_date < now / minutesPerDay →
      validate_delivery_timing payload now = .error .pastDate) ∧
    (now / minutesPerDay < payload.delivery_date →
      validate_delivery_timing payload now = .ok ()) ∧
    (payload.delivery_date = now / minutesPerDay →
      payload.delivery_window = .custom →
      validate_delivery_timing payload now = .error .sameDayCustomNotAllowed) ∧
    (∀ start_time, payload.delivery_date = now / minutesPerDay →
      WINDOW_START_TIMES payload.delivery_window = some start_time →
      (validate_delivery_timing payload now = .ok () ↔
        now + MIN_LEAD_MINUTES ≤ payload.delivery_date * minutesPerDay + start_time) ∧
      (payload.delivery_date * minutesPerDay + start_time < now + MIN_LEAD_MINUTES →
        validate_delivery_timing payload now = .error .insufficientLeadTime)) := by
  refine ⟨fun h => ?_, fun h => ?_, fun hd hw => ?_, fun s hd hw => ?_⟩
  · simp [validate_delivery_timing, h]
  · have h1 : ¬payload.delivery_date < now / minutesPerDay := by omega
    simp [validate_delivery_timing, h1, h]
  · have h1 : ¬payload.delivery_date < now / minutesPerDay := by omega
    have h2 : ¬now / minutesPerDay < payload.delivery_date := by omega
    simp [validate_delivery_timing, h1, h2, hw, WINDOW_START_TIMES]
  · have h1 : ¬payload.delivery_date < now / minutesPerDay := by omega
    have h2 : ¬now / minutesPerDay < payload.delivery_date := by omega
    constructor
    · by_cases hlt : payload.delivery_date * minutesPerDay + s < now + MIN_LEAD_MINUTES
      · simp only [validate_delivery_timing, if_neg h1, if_neg h2, hw,
          if_pos hlt]
        constructor
        · intro hc
          exact absurd hc (by simp)
        · intro hc
          omega
      · simp only [validate_delivery_timing, if_neg h1, if_neg h2, hw,
          if_neg hlt]
        constructor
        · intro _
          omega
        · intro _
          trivial
    · intro hlt
      simp only [validate_delivery_timing, if_neg h1, if_neg h2, hw, if_pos hlt]

theorem mkOrderItems_foldl (oid : ℕ) :
    ∀ (cart : List CartItem) (base : ℕ) (acc : ℚ),
      (mkOrderItems oid base cart).foldl
        (fun a it => a + (it.quantity : ℚ) * it.unit_price) acc
      = cart.foldl (fun a ci => a + (ci.quantity : ℚ) * ci.snapshot_price) acc := by
  intro cart
  induction cart with
  | nil => intro base acc; rfl
  | cons ci rest ih =>
      intro base acc
      simp only [mkOrderItems, List.foldl_cons]
      exact ih (base + 1) _

theorem itemsSubtotal_mkOrderItems (oid base : ℕ) (cart : List CartItem) :
    itemsSubtotal (mkOrderItems oid base cart) = cartSubtotal cart :=
  mkOrderItems_foldl oid cart base 0

theorem userCart_commitState (st : DBState) (u : ℕ) (ps : List Product)
    (payload : OrderCreate) : userCart (commitState st u ps payload) u = [] := by
  refine List.eq_nil_iff_forall_not_mem.mpr ?_
  intro c hc
  unfold userCart commitState at hc
  simp only [List.mem_filter] at hc
  obtain ⟨⟨_, hne⟩, heq⟩ := hc
  simp only [decide_eq_true_eq] at hne
  simp only [beq_iff_eq] at heq
  exact hne heq

/-! ### Claims about the checkout transaction -/

/-- C1: checkout is all-or-nothing. Every failing path (delivery-timing
rejection, empty cart, cart-validation failure, non-positive subtotal, the
internal stock-underflow fault) raises before `session.commit()`, and the
`get_session` lifecycle rolls the session back: the persisted state is
exactly the input state. On success, the order row, its item rows, the
stock deductions and the cart deletion all land together in the committed
state. -/
theorem checkout_all_or_nothing (st : DBState) (u : ℕ) (payload : OrderCreate)
    (now : ℕ) :
    (∀ e, create_order_from_cart st u payload now = .error e →
      runCheckout st u payload now = (st, none)) ∧
    (∀ st2 dto, create_order_from_cart st u payload now = .ok (st2, dto) →
      runCheckout st u payload now = (st2, some dto) ∧
      st2.cartItems = st.cartItems.filter (fun c => ¬c.user_id = u) ∧
      st2.orders = st.orders ++ [checkoutOrder st u payload] ∧
      st2.orderItems = st.orderItems ++ checkoutItems st u ∧
      deductStock st.products (userCart st u) = .ok st2.products) := by
  constructor
  · intro e he
    exact runCheckout_error he
  · intro st2 dto h
    obtain ⟨-, -, -, -, h5, h6, -⟩ := create_order_from_cart_ok h
    refine ⟨?_, ?_, ?_, ?_, h5⟩
    · unfold runCheckout
      rw [h]
    · rw [h6]; rfl
    · rw [h6]; rfl
    · rw [h6]; rfl

/-- C3: for every checkout that succeeds, the view's subtotal is
`Σ quantity·snapshot_price` over the cart lines, the tax is
`round2(subtotal × 0.08)` applied once on the tax amount, the created order
carries `total_amount = subtotal + tax` with status `pending`, and every
returned line has `line_total = quantity × unit_price`. -/
theorem checkout_pricing (st : DBState) (u : ℕ) (payload : OrderCreate)
    (now : ℕ) (st2 : DBState) (dto : OrderWithItemsRead)
    (h : create_order_from_cart st u payload now = .ok (st2, dto)) :
    dto.status = .pending ∧
    dto.subtotal = cartSubtotal (userCart st u) ∧
    dto.tax_amount = round2 (cartSubtotal (userCart st u) * TAX_RATE) ∧
    dto.total_amount = cartSubtotal (userCart st u)
      + round2 (cartSubtotal (userCart st u) * TAX_RATE) ∧
    (∃ o, st2.orders = st.orders ++ [o] ∧ o.status = .pending ∧
      o.total_amount = dto.total_amount) ∧
    (∀ it ∈ dto.items, it.line_total = (it.quantity : ℚ) * it.unit_price) := by
  obtain ⟨-, -, -, -, -, h6, h7⟩ := create_order_from_cart_ok h
  subst h7
  refine ⟨rfl, ?_, ?_, rfl, ⟨checkoutOrder st u payload, ?_, rfl, rfl⟩, ?_⟩
  · show itemsSubtotal (checkoutItems st u) = cartSubtotal (userCart st u)
    exact itemsSubtotal_mkOrderItems _ _ _
  · show round2 (itemsSubtotal (checkoutItems st u) * TAX_RATE) = _
    rw [show itemsSubtotal (checkoutItems st u) = cartSubtotal (userCart st u)
      from itemsSubtotal_mkOrderItems _ _ _]
  · rw [h6]; rfl
  · intro it hit
    have hit2 : it ∈ (checkoutItems st u).map (fun x =>
        ({ id := x.id, order_id := x.order_id, product_id := x.product_id,
           quantity := x.quantity, unit_price := x.unit_price,
           line_total := (x.quantity : ℚ) * x.unit_price } : OrderItemRead)) := hit
    obtain ⟨x, -, hx⟩ := List.mem_map.mp hit2
    rw [← hx]

/-- C2: under the data-model invariant that a user's cart holds at most one
line per product, a successful checkout empties the user's cart, decrements
each referenced product's stock by exactly its line's quantity, leaves all
other products untouched, and every deducted stock stays non-negative;
moreover once per-line validation has passed, the line-by-line deduction
always returns `ok` — the `StockUnderflow` branch is unreachable. -/
theorem checkout_stock_invariants (st : DBState) (u : ℕ) (payload : OrderCreate)
    (now : ℕ)
    (hnd : ((userCart st u).map (fun c => c.product_id)).Nodup) :
    (validationErrors st (userCart st u) = [] →
      ∃ ps2, deductStock st.products (userCart st u) = .ok ps2) ∧
    (∀ st2 dto, create_order_from_cart st u payload now = .ok (st2, dto) →
      userCart st2 u = [] ∧
      (∀ ci ∈ userCart st u, ∀ p, getProduct st ci.product_id = some p →
        getProduct st2 ci.product_id
          = some { p with stock_on_hand := p.stock_on_hand - (ci.quantity : ℤ) } ∧
        0 ≤ p.stock_on_hand - (ci.quantity : ℤ)) ∧
      (∀ pid, (∀ ci ∈ userCart st u, ci.product_id ≠ pid) →
        getProduct st2 pid = getProduct st pid)) := by
  have hvalid : validationErrors st (userCart st u) = [] →
      ∀ ci ∈ userCart st u, ∃ p, getProductIn st.products ci.product_id = some p ∧
        (ci.quantity : ℤ) ≤ p.stock_on_hand := by
    intro hv ci hci
    have hnone := (validationErrors_eq_nil_iff st (userCart st u)).mp hv ci hci
    obtain ⟨p, hp, -, hle, -⟩ := (lineReason_eq_none_iff st ci).mp hnone
    exact ⟨p, hp, hle⟩
  constructor
  · intro hv
    obtain ⟨ps2, hrun, -, -⟩ :=
      deductStock_spec (userCart st u) st.products hnd (hvalid hv)
    exact ⟨ps2, hrun⟩
  · intro st2 dto h
    obtain ⟨-, -, h3, -, h5, h6, -⟩ := create_order_from_cart_ok h
    obtain ⟨ps2, hrun, hdec, hun⟩ :=
      deductStock_spec (userCart st u) st.products hnd (hvalid h3)
    have hps : ps2 = st2.products := by
      have hcomb := hrun.symm.trans h5
      injection hcomb
    refine ⟨?_, ?_, ?_⟩
    · rw [h6]
      exact userCart_commitState st u st2.products payload
    · intro ci hci p hp
      constructor
      · have hres := hdec ci hci p hp
        rw [hps] at hres
        exact hres
      · obtain ⟨p', hp', hle⟩ := hvalid h3 ci hci
        have hp2 : getProductIn st.products ci.product_id = some p := hp
        rw [hp2] at hp'
        injection hp' with hp'
        rw [hp']
        omega
    · intro pid hpid
      have hres := hun pid hpid
      rw [hps] at hres
      exact hres

/-- C6: whenever per-line validation finds at least one violation (and the
payload itself passes delivery-timing validation), checkout fails with the
single aggregated per-line reason list: every violating line contributes
its entry — for insufficient stock, an entry carrying both the available
and the requested quantity — and the persisted state is unchanged. -/
theorem checkout_collects_all_violations (st : DBState) (u : ℕ)
    (payload : OrderCreate) (now : ℕ)
    (hok : validate_delivery_timing payload now = .ok ())
    (hne : validationErrors st (userCart st u) ≠ []) :
    create_order_from_cart st u payload now
      = .error (.cartValidationFailed (validationErrors st (userCart st u))) ∧
    runCheckout st u payload now = (st, none) ∧
    (∀ ci ∈ userCart st u, ∀ r, lineReason st ci = some r →
      (ci.product_id, r) ∈ validationErrors st (userCart st u)) ∧
    (∀ ci ∈ userCart st u, ∀ p, getProduct st ci.product_id = some p →
      p.is_active = true → p.stock_on_hand < (ci.quantity : ℤ) →
      (ci.product_id, LineReason.insufficientStock p.stock_on_hand ci.quantity)
        ∈ validationErrors st (userCart st u)) := by
  have hcart : userCart st u ≠ [] := by
    intro hc
    exact hne (by rw [hc]; rfl)
  have hfail : create_order_from_cart st u payload now
      = .error (.cartValidationFailed (validationErrors st (userCart st u))) := by
    unfold create_order_from_cart
    rw [hok, if_neg hcart, if_pos hne]
  refine ⟨hfail, runCheckout_error hfail, ?_, ?_⟩
  · intro ci hci r hr
    exact mem_validationErrors st (userCart st u) ci hci r hr
  · intro ci hci p hp ha hs
    have hr : lineReason st ci
        = some (.insufficientStock p.stock_on_hand ci.quantity) := by
      simp [lineReason, hp, ha, hs]
    exact mem_validationErrors st (userCart st u) ci hci _ hr

/-- C9: each cart line records at most one violation reason, chosen by the
fixed priority missing → inactive → insufficient stock → invalid price:
a line failing an earlier check is never additionally reported for a later
one, and the aggregated list never holds more entries than the cart has
lines. -/
theorem lineReason_priority (st : DBState) (ci : CartItem) :
    (getProduct st ci.product_id = none →
      lineReason st ci = some .productNotFound) ∧
    (∀ p, getProduct st ci.product_id = some p → p.is_active = false →
      lineReason st ci = some .productInactive) ∧
    (∀ p, getProduct st ci.product_id = some p → p.is_active = true →
      p.stock_on_hand < (ci.quantity : ℤ) →
      lineReason st ci = some (.insufficientStock p.stock_on_hand ci.quantity)) ∧
    (∀ p, getProduct st ci.product_id = some p → p.is_active = true →
      (ci.quantity : ℤ) ≤ p.stock_on_hand → ci.snapshot_price ≤ 0 →
      lineReason st ci = some .invalidCartPrice) ∧
    (∀ cart, (validationErrors st cart).length ≤ cart.length) := by
  refine ⟨fun h => ?_, fun p hp ha => ?_, fun p hp ha hs => ?_,
    fun p hp ha hs hpz => ?_, fun cart => ?_⟩
  · simp [lineReason, h]
  · simp [lineReason, hp, ha]
  · simp [lineReason, hp, ha, hs]
  · have hns : ¬p.stock_on_hand < (ci.quantity : ℤ) := not_lt.mpr hs
    simp [lineReason, hp, ha, hns, hpz]
  · unfold validationErrors
    exact List.length_filterMap_le _ _

theorem mkOrderItems_order_id (oid : ℕ) (cart : List CartItem) :
    ∀ base, ∀ it ∈ mkOrderItems oid base cart, it.order_id = oid := by
  induction cart with
  | nil =>
      intro base it hit
      simp [mkOrderItems] at hit
  | cons ci rest ih =>
      intro base it hit
      simp only [mkOrderItems, List.mem_cons] at hit
      rcases hit with hh | ht
      · rw [hh]
      · exact ih (base + 1) it ht

theorem find?_orders_append (l : List Order) (o : Order) (oid : ℕ)
    (hfresh : ∀ x ∈ l, x.id ≠ oid) (ho : o.id = oid) :
    (l ++ [o]).find? (fun x => x.id == oid) = some o := by
  induction l with
  | nil => simp [List.find?, beqTrueOfEq ho]
  | cons q rest ih =>
      have hq : q.id ≠ oid := hfresh q (List.mem_cons_self q rest)
      simp only [List.cons_append, List.find?_cons, beqFalseOfNe hq]
      exact ih (fun x hx => hfresh x (List.mem_cons_of_mem q hx))

theorem filter_items_append (l l2 : List OrderItem) (oid : ℕ)
    (hl : ∀ it ∈ l, it.order_id ≠ oid) (hl2 : ∀ it ∈ l2, it.order_id = oid) :
    (l ++ l2).filter (fun it => it.order_id == oid) = l2 := by
  rw [List.filter_append]
  have h1 : l.filter (fun it => it.order_id == oid) = [] := by
    simp only [List.filter_eq_nil_iff]
    intro a ha
    simp [hl a ha]
  have h2 : l2.filter (fun it => it.order_id == oid) = l2 := by
    rw [List.filter_eq_self]
    intro a ha
    simp [hl2 a ha]
  rw [h1, h2, List.nil_append]

/-- C10: the order-with-items view recomputes `subtotal` and `tax_amount`
from the stored items rather than reading them off the order row; for every
order created by checkout (with fresh ids, as `uuid4` guarantees), the view
returned by checkout itself, by `get_user_order` and by `get_order_admin`
is the same and satisfies `subtotal + tax_amount = total_amount` exactly. -/
theorem view_totals_consistent (st : DBState) (u : ℕ) (payload : OrderCreate)
    (now : ℕ) (st2 : DBState) (dto : OrderWithItemsRead)
    (h : create_order_from_cart st u payload now = .ok (st2, dto))
    (hfo : ∀ o ∈ st.orders, o.id ≠ st.nextId)
    (hfi : ∀ it ∈ st.orderItems, it.order_id ≠ st.nextId) :
    (∀ order items,
      (build_order_with_items_dto order items).subtotal = itemsSubtotal items ∧
      (build_order_with_items_dto order items).tax_amount
        = round2 (itemsSubtotal items * TAX_RATE)) ∧
    dto.subtotal + dto.tax_amount = dto.total_amount ∧
    get_user_order st2 u dto.id = .ok dto ∧
    get_order_admin st2 dto.id = .ok dto := by
  obtain ⟨-, -, -, -, -, h6, h7⟩ := create_order_from_cart_ok h
  have hsub : itemsSubtotal (checkoutItems st u) = cartSubtotal (userCart st u) :=
    itemsSubtotal_mkOrderItems _ _ _
  have horder : getOrderById st2 dto.id = some (checkoutOrder st u payload) := by
    have hid : dto.id = st.nextId := by rw [h7]; rfl
    rw [hid, h6]
    show (st.orders ++ [checkoutOrder st u payload]).find?
      (fun x => x.id == st.nextId) = some (checkoutOrder st u payload)
    exact find?_orders_append st.orders _ st.nextId hfo rfl
  have hitems : list_items_for_order st2 (checkoutOrder st u payload).id
      = checkoutItems st u := by
    rw [h6]
    show (st.orderItems ++ checkoutItems st u).filter
      (fun it => it.order_id == st.nextId) = checkoutItems st u
    exact filter_items_append st.orderItems (checkoutItems st u) st.nextId hfi
      (mkOrderItems_order_id st.nextId (userCart st u) (st.nextId + 1))
  refine ⟨fun order items => ⟨rfl, rfl⟩, ?_, ?_, ?_⟩
  · rw [h7]
    show itemsSubtotal (checkoutItems st u)
        + round2 (itemsSubtotal (checkoutItems st u) * TAX_RATE)
      = cartSubtotal (userCart st u)
        + round2 (cartSubtotal (userCart st u) * TAX_RATE)
    rw [hsub]
  · simp only [get_user_order, horder]
    rw [if_neg (show ¬(checkoutOrder st u payload).user_id ≠ u from
      not_not_intro rfl)]
    rw [hitems, h7]
    rfl
  · simp only [get_order_admin, horder]
    rw [hitems, h7]
    rfl

/-! ### Concrete fixtures for witnesses -/

/-- A checkout payload with the given delivery date and window. -/
def wPayload (d : ℕ) (w : DeliveryWindow) : OrderCreate :=
  { receiver_name := none, phone_number := "0", full_address := "addr",
    province := "prov", ward := "ward", delivery_date := d,
    delivery_window := w, note := none }

def wCart1 : CartItem :=
  { id := 10, user_id := 7, product_id := 1, quantity := 2, snapshot_price := 10 }

def wCart2 : CartItem :=
  { id := 11, user_id := 7, product_id := 2, quantity := 1, snapshot_price := 5 }

/-- Two active, sufficiently stocked products and a two-line cart for
user 7 — the worked scenario of the specification. -/
def wState : DBState :=
  { products := [{ id := 1, price := 10, stock_on_hand := 5, is_active := true },
                 { id := 2, price := 5, stock_on_hand := 3, is_active := true }],
    cartItems := [wCart1, wCart2],
    orders := [], orderItems := [], nextId := 100 }

def wOrder : Order :=
  { id := 100, user_id := 7, receiver_name := none, phone_number := "0",
    note := none, full_address := "addr", province := "prov", ward := "ward",
    delivery_date := 1, delivery_window := .morning, status := .pending,
    total_amount := 27 }

def wState2 : DBState :=
  { products := [{ id := 1, price := 10, stock_on_hand := 3, is_active := true },
                 { id := 2, price := 5, stock_on_hand := 2, is_active := true }],
    cartItems := [],
    orders := [wOrder],
    orderItems := [{ id := 101, order_id := 100, product_id := 1, quantity := 2,
                     unit_price := 10 },
                   { id := 102, order_id := 100, product_id := 2, quantity := 1,
                     unit_price := 5 }],
    nextId := 103 }

def wDto : OrderWithItemsRead :=
  { id := 100, user_id := 7, receiver_name := none, phone_number := "0",
    note := none, full_address := "addr", province := "prov", ward := "ward",
    delivery_date := 1, delivery_window := .morning, status := .pending,
    total_amount := 27,
    items := [{ id := 101, order_id := 100, product_id := 1, quantity := 2,
                unit_price := 10, line_total := 20 },
              { id := 102, order_id := 100, product_id := 2, quantity := 1,
                unit_price := 5, line_total := 5 }],
    subtotal := 25, tax_amount := 2 }

/-- Evaluating the embedded checkout on the worked scenario. -/
theorem wCheckout_eval :
    create_order_from_cart wState 7 (wPayload 1 .morning) 0 = .ok (wState2, wDto) := by
  norm_num +decide [create_order_from_cart, validate_delivery_timing,
    WINDOW_START_TIMES, userCart, validationErrors, lineReason, getProduct,
    getProductIn, cartSubtotal, deductStock, setStock, checkoutView,
    checkoutOrder, checkoutItems, mkOrderItems, build_order_with_items_dto,
    itemsSubtotal, commitState, round2, roundHalfEven, ratFloor, TAX_RATE,
    minutesPerDay, MIN_LEAD_MINUTES, wState, wState2, wDto, wOrder, wPayload,
    wCart1, wCart2, List.filter, List.filterMap, List.find?,
    beqFalseOfNe, beqTrueOfEq]

/-- The same storefront with the cart already empty. -/
def wStateE : DBState := { wState with cartItems := [] }

def wOrderP : Order := { wOrder with id := 50 }

/-- A state holding one pending order. -/
def wStateP : DBState :=
  { products := [], cartItems := [], orders := [wOrderP], orderItems := [],
    nextId := 200 }

def wOrderS : Order := { wOrder with id := 50, status := .shipped }

/-- A state holding one shipped order. -/
def wStateS : DBState :=
  { products := [], cartItems := [], orders := [wOrderS], orderItems := [],
    nextId := 200 }

/-- A cart with one under-stocked line and one inactive-product line. -/
def wBadState : DBState :=
  { products := [{ id := 1, price := 10, stock_on_hand := 1, is_active := true },
                 { id := 2, price := 5, stock_on_hand := 3, is_active := false }],
    cartItems := [{ id := 20, user_id := 7, product_id := 1, quantity := 5,
                    snapshot_price := 10 },
                  { id := 21, user_id := 7, product_id := 2, quantity := 1,
                    snapshot_price := 5 }],
    orders := [], orderItems := [], nextId := 300 }

/-- A cart line violating all of: inactive product, excessive quantity,
non-positive snapshot price. -/
def wBadLine : CartItem :=
  { id := 30, user_id := 8, product_id := 9, quantity := 10, snapshot_price := -1 }

def wBad2State : DBState :=
  { products := [{ id := 9, price := 10, stock_on_hand := 0, is_active := false }],
    cartItems := [wBadLine], orders := [], orderItems := [], nextId := 400 }

def wResP : StatusUpdateResult :=
  { state := { wStateP with orders := [{ wOrderP with status := .confirmed }] },
    order := { wOrderP with status := .confirmed },
    events := [.committed, .dispatchAttempt] }

/-! ### Witnesses -/

/-- C1 witness: an empty-cart failure commits nothing; the worked scenario
commits order, items, deductions and cart deletion together. -/
theorem checkout_all_or_nothing_witness :
    runCheckout wStateE 7 (wPayload 1 .morning) 0 = (wStateE, none) ∧
    runCheckout wState 7 (wPayload 1 .morning) 0 = (wState2, some wDto) ∧
    wState2.orders = wState.orders ++ [checkoutOrder wState 7 (wPayload 1 .morning)] := by
  refine ⟨?_, ?_, ?_⟩
  · exact (checkout_all_or_nothing wStateE 7 (wPayload 1 .morning) 0).1
      .emptyCart rfl
  · exact ((checkout_all_or_nothing wState 7 (wPayload 1 .morning) 0).2
      wState2 wDto wCheckout_eval).1
  · exact ((checkout_all_or_nothing wState 7 (wPayload 1 .morning) 0).2
      wState2 wDto wCheckout_eval).2.2.1

/-- C2 witness: after the worked checkout, user 7's cart is empty and
product 1's stock dropped from 5 by exactly the cart quantity 2. -/
theorem checkout_stock_invariants_witness :
    userCart wState2 7 = [] ∧
    getProduct wState2 1
      = some { id := 1, price := 10, stock_on_hand := 3, is_active := true } := by
  have hnd : ((userCart wState 7).map (fun c => c.product_id)).Nodup := by decide
  obtain ⟨h1, h2, -⟩ := (checkout_stock_invariants wState 7 (wPayload 1 .morning)
    0 hnd).2 wState2 wDto wCheckout_eval
  refine ⟨h1, ?_⟩
  have h3 := (h2 wCart1 (by decide)
    { id := 1, price := 10, stock_on_hand := 5, is_active := true } rfl).1
  norm_num [wCart1] at h3
  exact h3

/-- C3 witness: the spec's worked cart yields subtotal 25, tax 2, total 27,
status pending, with per-line totals. -/
theorem checkout_pricing_witness :
    wDto.status = .pending ∧ wDto.subtotal = 25 ∧ wDto.tax_amount = 2 ∧
    wDto.total_amount = 27 ∧
    (∀ it ∈ wDto.items, it.line_total = (it.quantity : ℚ) * it.unit_price) := by
  obtain ⟨h1, h2, h3, h4, -, h6⟩ := checkout_pricing wState 7 (wPayload 1 .morning)
    0 wState2 wDto wCheckout_eval
  have hsub : cartSubtotal (userCart wState 7) = 25 := by
    norm_num +decide [cartSubtotal, userCart, wState, wCart1, wCart2, List.filter]
  have htax : round2 ((25 : ℚ) * TAX_RATE) = 2 := by
    norm_num [round2, roundHalfEven, ratFloor, TAX_RATE]
  refine ⟨h1, ?_, ?_, ?_, h6⟩
  · rw [h2, hsub]
  · rw [h3, hsub, htax]
  · rw [h4, hsub, htax]
    norm_num

/-- C4 witness: `shipped → confirmed` is rejected leaving the state
unchanged, while `pending → confirmed` succeeds. -/
theorem update_status_transition_table_witness :
    run_update_status wStateS 50 .confirmed false
      = (wStateS, .error (.invalidStatusTransition .shipped .confirmed)) ∧
    (∃ r, update_status wStateP 50 .confirmed false = .ok r ∧
      r.order = { wOrderP with status := .confirmed }) := by
  constructor
  · exact (update_status_transition_table wStateS 50 .confirmed false wOrderS
      rfl (by decide)).2 (by decide)
  · obtain ⟨r, hr, hro, -⟩ := (update_status_transition_table wStateP 50
      .confirmed false wOrderP rfl (by decide)).1 (by decide)
    exact ⟨r, hr, hro⟩

/-- C5 witness: same-day morning window at 08:45 is rejected for
insufficient lead time; at 08:00 it is accepted. -/
theorem validate_delivery_timing_witness :
    validate_delivery_timing (wPayload 0 .morning) 525
      = .error .insufficientLeadTime ∧
    validate_delivery_timing (wPayload 0 .morning) 480 = .ok () := by
  constructor
  · exact ((validate_delivery_timing_claim (wPayload 0 .morning) 525).2.2.2
      540 rfl rfl).2 (by decide)
  · exact ((validate_delivery_timing_claim (wPayload 0 .morning) 480).2.2.2
      540 rfl rfl).1.mpr (by decide)

/-- C6 witness: a cart with an under-stocked line and an inactive-product
line fails with both per-line reasons aggregated, the stock one carrying
available 1 and requested 5; nothing is committed. -/
theorem checkout_collects_all_violations_witness :
    create_order_from_cart wBadState 7 (wPayload 1 .morning) 0
      = .error (.cartValidationFailed
          [(1, .insufficientStock 1 5), (2, .productInactive)]) ∧
    runCheckout wBadState 7 (wPayload 1 .morning) 0 = (wBadState, none) := by
  have hne : validationErrors wBadState (userCart wBadState 7) ≠ [] := by decide
  obtain ⟨h1, h2, -, -⟩ := checkout_collects_all_violations wBadState 7
    (wPayload 1 .morning) 0 rfl hne
  refine ⟨?_, h2⟩
  rw [h1]
  rfl

/-- C7 witness: `pending → confirmed` with a failing dispatcher still
succeeds, produces exactly one dispatch attempt after the commit, and gives
the same result as with a working dispatcher. -/
theorem update_status_confirm_notification_witness :
    update_status wStateP 50 .confirmed true = .ok wResP ∧
    wResP.events = [.committed, .dispatchAttempt] ∧
    wResP.order.status = .confirmed ∧
    update_status wStateP 50 .confirmed true
      = update_status wStateP 50 .confirmed false := by
  obtain ⟨hA, hB⟩ := update_status_confirm_notification wStateP 50 true wOrderP rfl
  have hr : update_status wStateP 50 .confirmed true = .ok wResP := rfl
  obtain ⟨he, hs, -⟩ := (hA .confirmed wResP hr).1 (by decide)
  exact ⟨hr, he, hs, hB .confirmed⟩

/-- C8 witness: a self-transition on a terminal `shipped` order is a no-op
success. -/
theorem update_status_noop_witness :
    update_status wStateS 50 .shipped false
      = .ok { state := wStateS, order := wOrderS, events := [] } :=
  update_status_noop wStateS 50 false wOrderS rfl

/-- C9 witness: a line on an inactive product that also has excessive
quantity and a non-positive price reports only the inactive reason. -/
theorem lineReason_priority_witness :
    lineReason wBad2State wBadLine = some .productInactive :=
  (lineReason_priority wBad2State wBadLine).2.1
    { id := 9, price := 10, stock_on_hand := 0, is_active := false } rfl rfl

/-- C10 witness: for the worked checkout, the admin view returns the same
DTO and its recomputed subtotal and tax sum exactly to the stored total. -/
theorem view_totals_consistent_witness :
    wDto.subtotal + wDto.tax_amount = wDto.total_amount ∧
    get_order_admin wState2 wDto.id = .ok wDto := by
  obtain ⟨-, h2, -, h4⟩ := view_totals_consistent wState 7 (wPayload 1 .morning)
    0 wState2 wDto wCheckout_eval (by simp [wState]) (by simp [wState])
  exact ⟨h2, h4⟩

end Amoura
